import Mathlib

/-!
Verification of the roleplAi serverless endpoints (`functions/api/video.ts`,
`functions/api/chat.ts`).

The TypeScript handlers are shallowly embedded: JSON values are the inductive
`JsonV` (an absent field / `undefined` is `Option.none`), JS strings are Lean
`String`s operated on through their character lists, and JS numbers carried by
JSON are modelled as rationals (JSON numerals are finite decimals; the
endpoints only ever compare them with the integral values 5 and 10 or clamp
them into a small integer range, so none of the binary-float rounding of the
runtime is observable here).  Network effects are explicit inputs: a polling
run consumes a list of provider responses, and the dispatch type of each
handler records whether an outbound provider call is made.
-/

set_option autoImplicit false

namespace Roleplai

/-- A parsed JSON value, as produced by `JSON.parse` / `request.json()`.
An absent object field (JS `undefined`) is represented as `Option.none`
at use sites. -/
inductive JsonV where
  | null
  | bool (b : Bool)
  | num (q : ℚ)
  | str (s : String)
  | arr (xs : List JsonV)
  | obj (kvs : List (String × JsonV))

/-- JS `typeof` for a defined value (`typeof null` is `"object"`). -/
def jsTypeofV : JsonV → String
  | .null => "object"
  | .bool _ => "boolean"
  | .num _ => "number"
  | .str _ => "string"
  | .arr _ => "object"
  | .obj _ => "object"

/-- JS `typeof`, with `none` standing for an absent field (`undefined`). -/
def jsTypeof : Option JsonV → String
  | none => "undefined"
  | some v => jsTypeofV v

/-- JS truthiness of a defined JSON value.  (`NaN` cannot occur in parsed
JSON, so `num` is falsy exactly at 0.) -/
def jsonTruthy : JsonV → Bool
  | .null => false
  | .bool b => b
  | .num q => q ≠ 0
  | .str s => s ≠ ""
  | .arr _ => true
  | .obj _ => true

/-- First binding of key `k` (parsed JSON objects have unique keys). -/
def lookupKey (k : String) : List (String × JsonV) → Option JsonV
  | [] => none
  | (k2, v) :: rest => if k2 = k then some v else lookupKey k rest

/-- JS property access `v.k` on a defined value: only objects expose the
data properties read by these handlers. -/
def jsGetV (v : JsonV) (k : String) : Option JsonV :=
  match v with
  | .obj kvs => lookupKey k kvs
  | _ => none

/-- JS optional-chained access `v?.k`. -/
def jsGet (v : Option JsonV) (k : String) : Option JsonV :=
  match v with
  | some w => jsGetV w k
  | none => none

/-- JS `a || b` on possibly-undefined values. -/
def jsOrV (a b : Option JsonV) : Option JsonV :=
  match a with
  | some v => if jsonTruthy v then some v else b
  | none => b

/-- JS strict equality `v === (s : string)`. -/
def isStrEq (v : Option JsonV) (s : String) : Bool :=
  match v with
  | some (.str t) => t = s
  | _ => false

/-- The underlying string of a string-valued field (only used where the code
has already established `typeof v === "string"`). -/
def strValOf : Option JsonV → String
  | some (.str s) => s
  | _ => ""

/-! ### Character-list string primitives

The JS string operations used by the handlers (`trim`, `slice`,
`startsWith`, `includes`, `split`, `toLowerCase`, `toUpperCase`) are
modelled on the character list of the Lean string.  JS operates on UTF-16
code units and trims the full Unicode whitespace class; on the ASCII data
these endpoints handle the two coincide. -/

/-- `pre` is an initial run of `cs`. -/
def hasPre : List Char → List Char → Bool
  | [], _ => true
  | _ :: _, [] => false
  | p :: ps, c :: cs => p = c && hasPre ps cs

/-- JS `String.prototype.includes`. -/
def listHas (needle : List Char) : List Char → Bool
  | [] => needle.isEmpty
  | c :: rest => hasPre needle (c :: rest) || listHas needle rest

/-- JS `hay.includes(needle)`. -/
def strContains (hay needle : String) : Bool :=
  listHas needle.data hay.data

/-- JS `String.prototype.trim` (ASCII whitespace). -/
def trimChars (cs : List Char) : List Char :=
  ((cs.dropWhile Char.isWhitespace).reverse.dropWhile Char.isWhitespace).reverse

/-- JS `s.trim()`. -/
def jsTrim (s : String) : String :=
  String.mk (trimChars s.data)

/-- JS `s.slice(0, maxLen)`. -/
def jsSlice0 (s : String) (maxLen : Nat) : String :=
  String.mk (s.data.take maxLen)

/-- JS `s.toLowerCase()` (ASCII). -/
def lowerStr (s : String) : String :=
  String.mk (s.data.map Char.toLower)

/-- JS `s.toUpperCase()` (ASCII). -/
def upperStr (s : String) : String :=
  String.mk (s.data.map Char.toUpper)

/-! ### Decimal rendering of JS numbers (`String(n)`)

`natDecList fuel n` produces the decimal digits of `n` most significant
first; the fuel argument (instantiated with `n` itself) makes the
recursion structural. -/

def natDecList : Nat → Nat → List Char
  | 0, _ => []
  | fuel + 1, n =>
    if n = 0 then []
    else natDecList fuel (n / 10) ++ [Char.ofNat (48 + n % 10)]

/-- Decimal digit list of a natural number (`"0"` for zero). -/
def natDecList0 (n : Nat) : List Char :=
  if n = 0 then ['0'] else natDecList n n

/-- Decimal string of a natural number. -/
def natDecStr (n : Nat) : String :=
  String.mk (natDecList0 n)

/-- Decimal digit list of an integer. -/
def intDecList (i : Int) : List Char :=
  if i < 0 then '-' :: natDecList0 i.natAbs else natDecList0 i.natAbs

/-- Decimal string of an integer, JS `String(i)`. -/
def intDecStr (i : Int) : String :=
  String.mk (intDecList i)

/-- Decimal digits of the fractional part `q` (`0 ≤ q < 1`), with fuel.
JS prints the shortest round-tripping decimal of a binary double; for the
comparisons performed by the handlers only the presence of a fractional
part (hence of a `'.'`) is ever observable. -/
def fracList : Nat → ℚ → List Char
  | 0, _ => []
  | fuel + 1, q =>
    if q = 0 then []
    else
      let d := Rat.floor (q * 10)
      Char.ofNat (48 + d.toNat) :: fracList fuel (q * 10 - d)

/-- JS `String(q)` for a number: integers render in plain decimal, anything
else carries a decimal point. -/
def jsNumToString (q : ℚ) : String :=
  if q.den = 1 then intDecStr q.num
  else
    String.mk
      ((if q < 0 then ['-'] else []) ++ natDecList0 (Rat.floor |q|).toNat
        ++ '.' :: fracList 40 (|q| - Rat.floor |q|))

/-! ### JS `String(v)` on parsed JSON values -/

mutual

/-- JS `String(v)` for a defined JSON value. -/
def jsStringOfJson : JsonV → String
  | .null => "null"
  | .bool true => "true"
  | .bool false => "false"
  | .num q => jsNumToString q
  | .str s => s
  | .arr xs => String.intercalate "," (jsArrStrings xs)
  | .obj _ => "[object Object]"

/-- Array elements under `Array.prototype.toString`: `null` (and
`undefined`) render as the empty string. -/
def jsArrStrings : List JsonV → List String
  | [] => []
  | x :: xs =>
    (match x with
     | .null => ""
     | v => jsStringOfJson v) :: jsArrStrings xs

end

/-- JS `String(s || "")` on a possibly-undefined value. -/
def jsStringOrEmpty (s : Option JsonV) : String :=
  match s with
  | some v => if jsonTruthy v then jsStringOfJson v else ""
  | none => ""

/-! ### JS `Number(v)` -/

/-- The result of JS `ToNumber`. -/
inductive JsNum where
  | finite (q : ℚ)
  | nan
  | posInf
  | negInf
deriving DecidableEq

/-- `Number.isFinite`. -/
def jsNumIsFinite : JsNum → Bool
  | .finite _ => true
  | _ => false

/-- `'0' ≤ c ≤ '9'`. -/
def decDigit (c : Char) : Bool := '0' ≤ c && c ≤ '9'

/-- Value of a decimal digit run. -/
def decVal (cs : List Char) : Nat :=
  cs.foldl (fun a c => a * 10 + (c.toNat - 48)) 0

/-- Value of a hex/octal/binary digit character (≥ 999 when invalid). -/
def radixDigitVal (c : Char) : Nat :=
  if decDigit c then c.toNat - 48
  else if 'a' ≤ c && c ≤ 'f' then c.toNat - 87
  else if 'A' ≤ c && c ≤ 'F' then c.toNat - 55
  else 999

/-- The rational `sign * m * 10 ^ k`, built with a single `Rat.divInt` so
that it evaluates by kernel reduction. -/
def ratOfParts (sign : Int) (m : Nat) (k : Int) : ℚ :=
  if 0 ≤ k then Rat.divInt (sign * m * ((10 : Nat) ^ k.toNat : Nat)) 1
  else Rat.divInt (sign * m) ((10 : Nat) ^ (-k).toNat)

/-- A `0x`/`0o`/`0b` literal body. -/
def parseRadixNat (radix : Nat) (cs : List Char) : JsNum :=
  if !cs.isEmpty && cs.all (fun c => radixDigitVal c < radix) then
    .finite (ratOfParts 1 (cs.foldl (fun a c => a * radix + radixDigitVal c) 0) 0)
  else .nan

/-- Split at the first character satisfying `p`; `none` when absent. -/
def splitAtFirst (p : Char → Bool) : List Char → List Char × Option (List Char)
  | [] => ([], none)
  | c :: rest =>
    if p c then ([], some rest)
    else
      let (a, b) := splitAtFirst p rest
      (c :: a, b)

/-- ExponentPart of a decimal literal: optional sign, then digits. -/
def parseExp (cs : List Char) : Option Int :=
  match cs with
  | '+' :: t => if !t.isEmpty && t.all decDigit then some (decVal t) else none
  | '-' :: t => if !t.isEmpty && t.all decDigit then some (-(decVal t : Int)) else none
  | t => if !t.isEmpty && t.all decDigit then some (decVal t) else none

/-- Mantissa `digits [. digits]` of a decimal literal (at least one digit
overall); returns the digit-run value together with the number of
fractional digits, so the value is `fst * 10 ^ (-snd)`. -/
def parseMant (cs : List Char) : Option (Nat × Nat) :=
  let (ip, fpOpt) := splitAtFirst (fun c => c = '.') cs
  match fpOpt with
  | none => if !ip.isEmpty && ip.all decDigit then some (decVal ip, 0) else none
  | some fp =>
    if (!ip.isEmpty || !fp.isEmpty) && ip.all decDigit && fp.all decDigit then
      some (decVal (ip ++ fp), fp.length)
    else none

/-- Unsigned `StrDecimalLiteral` (mantissa with optional exponent); the
value is `fst * 10 ^ snd`. -/
def parseDec (cs : List Char) : Option (Nat × Int) :=
  let (mant, expOpt) := splitAtFirst (fun c => c = 'e' || c = 'E') cs
  match expOpt with
  | none => (parseMant mant).map (fun mf => (mf.1, -(mf.2 : Int)))
  | some ec =>
    match parseMant mant, parseExp ec with
    | some mf, some e => some (mf.1, e - (mf.2 : Int))
    | _, _ => none

/-- JS `Number(s)` for a string: trimmed, empty ↦ 0, `0x`/`0o`/`0b`
literals, optional sign with `Infinity` or a decimal literal, `NaN`
otherwise. -/
def jsParseNumber (s : String) : JsNum :=
  let cs := trimChars s.data
  if cs.isEmpty then .finite 0
  else if cs.take 2 = ['0', 'x'] || cs.take 2 = ['0', 'X'] then parseRadixNat 16 (cs.drop 2)
  else if cs.take 2 = ['0', 'o'] || cs.take 2 = ['0', 'O'] then parseRadixNat 8 (cs.drop 2)
  else if cs.take 2 = ['0', 'b'] || cs.take 2 = ['0', 'B'] then parseRadixNat 2 (cs.drop 2)
  else
    let sign : Int := match cs with | '-' :: _ => -1 | _ => 1
    let rest := match cs with | '-' :: t => t | '+' :: t => t | t => t
    if rest = "Infinity".data then (if sign = 1 then .posInf else .negInf)
    else
      match parseDec rest with
      | some mk => .finite (ratOfParts sign mk.1 mk.2)
      | none => .nan

/-- JS `Number(v)` on a possibly-undefined JSON value: objects and arrays
convert through their string form. -/
def jsToNumber (v : Option JsonV) : JsNum :=
  match v with
  | none => .nan
  | some .null => .finite 0
  | some (.bool b) => .finite (if b then 1 else 0)
  | some (.num q) => .finite q
  | some (.str s) => jsParseNumber s
  | some w => jsParseNumber (jsStringOfJson w)

/-! ## `functions/api/video.ts` -/

/-- The fixed model identifier sent to the provider. -/
def videoModel : String := "grok-imagine-image-to-video"

/-- Fallback prompt used when the client sends none. -/
def defaultVideoPrompt : String := "Animate this image into a short cinematic clip."

/-- `isDataUrlImage` on an already-string value: the regex
`^data:image\/[a-zA-Z0-9.+-]+;base64,` tested against `s.trim()`. -/
def isImageSubtypeChar (c : Char) : Bool :=
  c.isAlphanum || c = '.' || c = '+' || c = '-'

/-- Regex test of `isDataUrlImage` on the trimmed string. -/
def dataUrlTest (s : String) : Bool :=
  let t := trimChars s.data
  hasPre "data:image/".data t &&
    (let rest := t.drop 11
     let sub := rest.takeWhile isImageSubtypeChar
     !sub.isEmpty && hasPre ";base64,".data (rest.drop sub.length))

/-- `isDataUrlImage(s)`: a string whose trimmed form is a base64 image data
URL. -/
def isDataUrlImage (v : Option JsonV) : Bool :=
  match v with
  | some (.str s) => dataUrlTest s
  | _ => false

/-- The in-progress vocabulary on the uppercased status string. -/
def procVocab (v : String) : Bool :=
  v = "PROCESSING" || v = "QUEUED" || v = "PENDING" || v = "STARTING" ||
    v = "RUNNING" || v = "IN_PROGRESS"

/-- The terminal-failure vocabulary on the uppercased status string. -/
def termVocab (v : String) : Bool :=
  v = "FAILED" || v = "ERROR" || v = "CANCELED" || v = "CANCELLED"

/-- `isProcessingStatus(s)`: `String(s || "").toUpperCase()` against the
in-progress vocabulary. -/
def isProcessingStatus (s : Option JsonV) : Bool :=
  procVocab (upperStr (jsStringOrEmpty s))

/-- `isTerminalErrorStatus(s)`. -/
def isTerminalErrorStatus (s : Option JsonV) : Bool :=
  termVocab (upperStr (jsStringOrEmpty s))

/-- An HTTP response produced by the endpoint: either a JSON body built with
the `json(...)` helper, or the provider's binary body relayed with an
explicit `Content-Type`. -/
inductive VideoResult where
  | jsonResp (status : Nat) (body : JsonV)
  | binary (status : Nat) (contentType : String) (body : String)

/-- Body of the 500 returned when `VENICE_API_KEY` is absent. -/
def missingKeyBody : JsonV :=
  .obj [("error", .str "Missing VENICE_API_KEY in environment secrets.")]

/-- Body of the 400 returned for a missing/malformed image. -/
def imageErrBody (receivedType : String) : JsonV :=
  .obj [("error", .str "Image required as data URL (e.g. data:image/png;base64,...)"),
        ("receivedType", .str receivedType)]

/-- Embedding of a request-field value into a response body;
`JSON.stringify` drops `undefined`-valued keys. -/
def embedField : Option JsonV → List (String × JsonV)
  | none => []
  | some v => [("received", v)]

/-- Body of the 400 returned for an unsupported duration. -/
def durationErrBody (received : Option JsonV) : JsonV :=
  .obj ([("error", .str "Unsupported duration. Supported: 5, 10"),
         ("supported", .arr [.num 5, .num 10])] ++ embedField received)

/-- Body of the 502 returned when the queue call has a non-success status. -/
def queueFailedBody (status : Nat) (details : String) : JsonV :=
  .obj [("error", .str "Venice queue failed"), ("status", .num status),
        ("details", .str details)]

/-- Body of the 502 returned when the queue response lacks a `queue_id`. -/
def missingQueueIdBody (details : String) : JsonV :=
  .obj [("error", .str "Venice queue response missing queue_id"),
        ("details", .str details)]

/-- Body of the 502 returned when a retrieve call has a non-success
status. -/
def retrieveFailBody (status : Nat) (details qid : String) : JsonV :=
  .obj [("error", .str "Venice retrieve failed"), ("status", .num status),
        ("details", .str details), ("queue_id", .str qid)]

/-- `{ videoUrl, queue_id, status: status || "DONE" }`. -/
def videoUrlBody (url qid : String) (status : Option JsonV) : JsonV :=
  .obj [("videoUrl", .str url), ("queue_id", .str qid),
        ("status", match status with
                   | some v => if jsonTruthy v then v else .str "DONE"
                   | none => .str "DONE")]

/-- `details` is the parsed JSON (or `null` when parsing failed). -/
def detailsOf : Option JsonV → JsonV
  | some v => v
  | none => .null

/-- Body of the 502 for a terminal-failure provider status. -/
def terminalFailBody (qid : String) (j : Option JsonV) : JsonV :=
  .obj [("error", .str "Venice reported terminal failure"),
        ("queue_id", .str qid), ("details", detailsOf j)]

/-- Body of the 502 for unrecognized JSON from the provider. -/
def unexpectedJsonBody (qid : String) (j : Option JsonV) : JsonV :=
  .obj [("error", .str "Venice retrieve returned unexpected JSON"),
        ("queue_id", .str qid), ("details", detailsOf j)]

/-- Body of the 202 returned when the time budget is exhausted. -/
def timeoutBody (qid : String) : JsonV :=
  .obj [("status", .str "PROCESSING"), ("queue_id", .str qid),
        ("message", .str "Still generating. Poll with \x7bqueue_id\x7d.")]

/-! ### The polling loop `retrieveUntilDone` -/

/-- One provider response to a retrieve call, as observed by the loop:
`ok`/`status` of the HTTP layer, the `content-type` header, the raw body
text, and the result of `r.json().catch(() => null)` (`none` when parsing
failed). -/
structure RetrieveResp where
  ok : Bool
  status : Nat
  contentType : Option String
  textBody : String
  jsonBody : Option JsonV

/-- One iteration's worth of network input: the retrieve response plus the
wall-clock duration of the round-trip. -/
structure PollEvent where
  fetchMs : Nat
  resp : RetrieveResp

/-- `(r.headers.get("content-type") || "").toLowerCase()`. -/
def ctLowerOf (ct : Option String) : String :=
  lowerStr (ct.getD "")

/-- `ct.startsWith("video/") ? ct.split(";")[0] : "video/mp4"`, then
`videoMime || "video/mp4"`. -/
def relayMime (ctRaw : Option String) : String :=
  let ct := ctLowerOf ctRaw
  let videoMime :=
    if hasPre "video/".data ct.data then String.mk (ct.data.takeWhile (fun c => c ≠ ';'))
    else "video/mp4"
  if videoMime = "" then "video/mp4" else videoMime

/-- `j?.video_url || j?.media_url`. -/
def urlCandidate (j : Option JsonV) : Option JsonV :=
  jsOrV (jsGet j "video_url") (jsGet j "media_url")

/-- `typeof maybeUrl === "string" && maybeUrl.startsWith("http")`. -/
def isHttpUrl (v : Option JsonV) : Bool :=
  match v with
  | some (.str u) => hasPre "http".data u.data
  | _ => false

/-- The string payload of a url candidate already known to be a string. -/
def urlStrOf : Option JsonV → String
  | some (.str u) => u
  | _ => ""

/-- What one loop iteration does with a provider response: sleep and retry,
or return a final response. -/
inductive StepOut where
  | again
  | finish (r : VideoResult)

/-- The body of the `while` loop in `retrieveUntilDone`, classifying a
single retrieve response. -/
def retrieveStep (qid : String) (r : RetrieveResp) : StepOut :=
  if r.ok then
    if strContains (ctLowerOf r.contentType) "application/json" then
      let status := jsGet r.jsonBody "status"
      if isProcessingStatus status then .again
      else if isHttpUrl (urlCandidate r.jsonBody) then
        .finish (.jsonResp 200 (videoUrlBody (urlStrOf (urlCandidate r.jsonBody)) qid status))
      else if isTerminalErrorStatus status then
        .finish (.jsonResp 502 (terminalFailBody qid r.jsonBody))
      else
        .finish (.jsonResp 502 (unexpectedJsonBody qid r.jsonBody))
    else
      .finish (.binary 200 (relayMime r.contentType) r.textBody)
  else
    .finish (.jsonResp 502 (retrieveFailBody r.status r.textBody qid))

/-- The outcome of a polling run: the HTTP response produced, together
with how many retrieve calls were issued and how many sleep/retry cycles
were performed. -/
structure PollOutcome where
  result : VideoResult
  fetches : Nat
  sleeps : Nat

/-- The `while (Date.now() - started < maxWaitMs)` loop.  `elapsed` is the
wall-clock time since `started` at the loop head; each iteration consumes
the next `PollEvent`, adding its round-trip time and (on retry) one sleep
of `pollEveryMs`.  Returns `none` only when the event trace is exhausted
while the loop would still poll (an input outside the modelled trace). -/
def retrieveLoop (qid : String) (maxWaitMs pollEveryMs : Nat) :
    List PollEvent → Nat → Nat → Nat → Option PollOutcome
  | [], elapsed, fetches, sleeps =>
    if elapsed < maxWaitMs then none
    else some ⟨.jsonResp 202 (timeoutBody qid), fetches, sleeps⟩
  | e :: rest, elapsed, fetches, sleeps =>
    if elapsed < maxWaitMs then
      match retrieveStep qid e.resp with
      | .again =>
        retrieveLoop qid maxWaitMs pollEveryMs rest
          (elapsed + e.fetchMs + pollEveryMs) (fetches + 1) (sleeps + 1)
      | .finish r => some ⟨r, fetches + 1, sleeps⟩
    else
      some ⟨.jsonResp 202 (timeoutBody qid), fetches, sleeps⟩

/-- `retrieveUntilDone` entered with a fresh clock. -/
def retrieveUntilDone (qid : String) (maxWaitMs pollEveryMs : Nat)
    (evs : List PollEvent) : Option PollOutcome :=
  retrieveLoop qid maxWaitMs pollEveryMs evs 0 0 0

/-! ### The `onRequestPost` handler of `video.ts` -/

/-- The JSON body sent to the provider's queue call. -/
structure QueuePayload where
  model : String
  prompt : String
  duration : String
  image_url : String
  aspect_ratio : String
  resolution : String
  audio : Bool

/-- The request body fields read by the handler (each `none` when absent,
mirroring `body?.field`; a non-JSON request body behaves as all-`none`). -/
structure VideoReq where
  queue_id : Option JsonV
  image : Option JsonV
  duration : Option JsonV
  prompt : Option JsonV
  quality : Option JsonV

/-- What the handler decides to do before any provider traffic:
`respond` replies immediately without contacting the provider,
`pollMode` enters `retrieveUntilDone` on an existing queue id (Mode B),
and `queueCall` issues the provider queue call with the given payload
(Mode A). -/
inductive VideoDispatch where
  | respond (r : VideoResult)
  | pollMode (queueId model : String) (maxWaitMs pollEveryMs : Nat)
  | queueCall (payload : QueuePayload)

/-- `typeof queueIdFromClient === "string" && queueIdFromClient.trim()`. -/
def isPollRequest (v : Option JsonV) : Bool :=
  match v with
  | some (.str s) => !(jsTrim s).isEmpty
  | _ => false

/-- The trimmed queue id of a Mode B request. -/
def pollQueueId (v : Option JsonV) : String :=
  match v with
  | some (.str s) => jsTrim s
  | _ => ""

/-- The effective resolution: `body?.quality` when it is one of the three
supported strings, else `"480p"`. -/
def resolutionOf (q : Option JsonV) : String :=
  match q with
  | some (.str s) => if s = "480p" || s = "720p" || s = "1080p" then s else "480p"
  | _ => "480p"

/-- The effective prompt: a non-blank string is trimmed, anything else
falls back to the default. -/
def promptOf (p : Option JsonV) : String :=
  match p with
  | some (.str s) => if jsTrim s = "" then defaultVideoPrompt else jsTrim s
  | _ => defaultVideoPrompt

/-- `durNum`: `String(durationRaw)` for numbers, `durationRaw.trim()` for
strings, `"5"` otherwise. -/
def durNumOf (d : Option JsonV) : String :=
  match d with
  | some (.num q) => jsNumToString q
  | some (.str s) => jsTrim s
  | _ => "5"

/-- `dur`: the provider duration token, `none` for unsupported values. -/
def durToken (durNum : String) : Option String :=
  if durNum = "5" then some "5s" else if durNum = "10" then some "10s" else none

/-- The queue payload of a Mode A submission. -/
def modeAPayload (req : VideoReq) (dur : String) : QueuePayload :=
  ⟨videoModel, promptOf req.prompt, dur, strValOf req.image, "16:9",
    resolutionOf req.quality, false⟩

/-- Mode A of the handler: image validation, then duration mapping, then
the provider queue call.  Early returns are modelled as `if`/`else`. -/
def videoModeA (req : VideoReq) : VideoDispatch :=
  if isDataUrlImage req.image then
    match durToken (durNumOf req.duration) with
    | some d => .queueCall (modeAPayload req d)
    | none => .respond (.jsonResp 400 (durationErrBody req.duration))
  else
    .respond (.jsonResp 400 (imageErrBody (jsTypeof req.image)))

/-- `onRequestPost` of `video.ts` up to its first provider call. -/
def videoPost (hasKey : Bool) (req : VideoReq) : VideoDispatch :=
  if hasKey then
    if isPollRequest req.queue_id then
      .pollMode (pollQueueId req.queue_id) videoModel 25000 2000
    else videoModeA req
  else
    .respond (.jsonResp 500 missingKeyBody)

/-! ### Handling of the queue response (Mode A, after the queue call) -/

/-- The provider's response to the queue call: HTTP `ok`/`status`, the raw
body text, and `JSON.parse(queueText)` (`none` when parsing failed). -/
structure QueueResp where
  ok : Bool
  status : Nat
  text : String
  json : Option JsonV

/-- What the handler does with the queue response: reply at once, or
proceed to `retrieveUntilDone` with the extracted `queue_id`. -/
inductive QueueOutcome where
  | respond (r : VideoResult)
  | proceed (queueId : JsonV)

/-- Lines 154–176 of `video.ts`: non-success statuses are relayed as a 502;
a success response must carry a truthy `queue_id` or a 502
"missing queue_id" is returned. -/
def handleQueueResp (qr : QueueResp) : QueueOutcome :=
  if qr.ok then
    match jsGet qr.json "queue_id" with
    | some v =>
      if jsonTruthy v then .proceed v
      else .respond (.jsonResp 502 (missingQueueIdBody qr.text))
    | none => .respond (.jsonResp 502 (missingQueueIdBody qr.text))
  else
    .respond (.jsonResp 502 (queueFailedBody qr.status qr.text))

/-! ## `functions/api/chat.ts` -/

/-- `safeStr(v, maxLen)`: strings are sliced to `maxLen`, anything else
becomes `""`. -/
def safeStr (v : Option JsonV) (maxLen : Nat) : String :=
  match v with
  | some (.str s) => jsSlice0 s maxLen
  | _ => ""

/-- `clamp(n, min, max) = Math.max(min, Math.min(max, n))` on the integer
produced by `Math.floor`. -/
def intClamp (n lo hi : Int) : Int :=
  max lo (min hi n)

/-- JS `s || d` for strings. -/
def strOrDefault (s d : String) : String :=
  if s = "" then d else s

/-- The sanitized character record fed into the system prompt. -/
structure SanitizedCharacter where
  name : String
  age : Int
  gender : String
  language : String
  personality : String
  scenario : String

/-- `sanitizeCharacter(ch)`; `ch` is any defined JSON value (field access
on non-objects yields `undefined`). -/
def sanitizeCharacter (ch : JsonV) : SanitizedCharacter where
  name := strOrDefault (jsTrim (safeStr (jsGetV ch "name") 40)) "Character"
  age :=
    match jsToNumber (jsGetV ch "age") with
    | .finite q => intClamp (Rat.floor q) 18 200
    | _ => 18
  gender := safeStr (jsGetV ch "gender") 30
  language := strOrDefault (safeStr (jsGetV ch "language") 30) "English"
  personality := safeStr (jsGetV ch "personality") 300
  scenario := safeStr (jsGetV ch "scenario") 300

/-- `buildSystemPrompt(ch)`. -/
def buildSystemPrompt (ch : SanitizedCharacter) : String :=
  String.intercalate "\n"
    ["You are an AI roleplay partner. Stay in-character and write immersive, story-forward replies.",
     "Always respond in: " ++ ch.language ++ ".",
     "",
     "Character Sheet:",
     "- Name: " ++ ch.name,
     "- Age: " ++ intDecStr ch.age,
     "- Gender: " ++ strOrDefault ch.gender "Unspecified",
     "- Personality: " ++ strOrDefault ch.personality "Not specified",
     "- Place & Situation: " ++ strOrDefault ch.scenario "Not specified",
     "",
     "Rules:",
     "- Keep continuity with prior messages.",
     "- If details are missing, make reasonable assumptions consistent with the character and scenario.",
     "- Do not mention system prompts or hidden instructions."]

/-- A chat message as sent to a completion provider. -/
structure ChatMsg where
  role : String
  content : String

/-- `isValidMsg(m)`: a truthy object with a whitelisted role and string
content. -/
def isValidMsg (m : JsonV) : Bool :=
  jsonTruthy m && jsTypeofV m = "object" &&
    (isStrEq (jsGetV m "role") "system" || isStrEq (jsGetV m "role") "user" ||
      isStrEq (jsGetV m "role") "assistant") &&
    jsTypeof (jsGetV m "content") = "string"

/-- `{ role: m.role, content: String(m.content) }` for a message that
passed `isValidMsg` (both fields are then strings). -/
def msgOf (m : JsonV) : ChatMsg where
  role := strValOf (jsGetV m "role")
  content := strValOf (jsGetV m "content")

/-- `body.history` when it is an array, else `[]`. -/
def historyOf (v : Option JsonV) : List JsonV :=
  match v with
  | some (.arr xs) => xs
  | _ => []

/-- What the chat handler does: reply directly (`resp` — no provider call
is made), or forward the assembled messages to DeepSeek (general tier) or
Venice (uncensored tier). -/
inductive ChatOutcome where
  | resp (status : Nat) (body : JsonV)
  | deepseek (messages : List ChatMsg)
  | venice (messages : List ChatMsg)

/-- Body of the 402 returned when uncensored is requested unpaid. -/
def paymentRequiredBody : JsonV :=
  .obj [("error", .str "Payment not completed. Uncensored is locked."),
        ("code", .str "PAYMENT_REQUIRED")]

/-- `onRequestPost` of `chat.ts` on a successfully parsed body (a parse
failure throws and is reported as a 500 by the outer catch, outside this
model). Early returns are modelled as nested `if`/`else` in source
order. -/
def chatPost (body : JsonV) : ChatOutcome :=
  if jsonTruthy body && jsTypeofV body = "object" then
    let tier := if isStrEq (jsGetV body "tier") "uncensored" then "uncensored" else "general"
    if tier = "uncensored" && !isStrEq (jsGetV body "paymentStatus") "paid" then
      .resp 402 paymentRequiredBody
    else
      match jsGetV body "message" with
      | some (.str msg) =>
        if jsTrim msg = "" then .resp 400 (.obj [("error", .str "Missing message.")])
        else
          match jsGetV body "character" with
          | some chv =>
            if jsonTruthy chv && jsTypeofV chv = "object" then
              let ch := sanitizeCharacter chv
              let history := historyOf (jsGetV body "history")
              let messages :=
                ⟨"system", buildSystemPrompt ch⟩ ::
                  ((history.filter isValidMsg).map msgOf ++ [⟨"user", jsTrim msg⟩])
              if tier = "general" then .deepseek messages else .venice messages
            else .resp 400 (.obj [("error", .str "Missing character.")])
          | none => .resp 400 (.obj [("error", .str "Missing character.")])
      | _ => .resp 400 (.obj [("error", .str "Missing message.")])
  else
    .resp 400 (.obj [("error", .str "Invalid body.")])

/-! ## Facts about decimal rendering

Used to settle which JS numbers stringify to `"5"` and `"10"`. -/

theorem natDecList_zero (fuel : Nat) : natDecList fuel 0 = [] := by
  cases fuel <;> simp [natDecList]

theorem natDecList_ne_nil (fuel n : Nat) (h1 : 0 < n) (h2 : n ≤ fuel) :
    natDecList fuel n ≠ [] := by
  cases fuel with
  | zero => omega
  | succ f =>
    simp only [natDecList, if_neg (by omega : ¬ n = 0)]
    simp

theorem charOfNat_digit_toNat (m : Nat) (hm : m < 10) :
    (Char.ofNat (48 + m)).toNat = 48 + m := by
  interval_cases m <;> decide

theorem natDecList_eq_single (fuel n d : Nat) (h1 : 0 < n) (h2 : n ≤ fuel)
    (hd : d < 10) (h : natDecList fuel n = [Char.ofNat (48 + d)]) : n = d := by
  cases fuel with
  | zero => omega
  | succ f =>
    rw [natDecList, if_neg (by omega : ¬ n = 0)] at h
    have hnil : natDecList f (n / 10) = [] := by
      cases hx : natDecList f (n / 10) with
      | nil => rfl
      | cons a l => rw [hx] at h; simp at h
    have hdiv : n / 10 = 0 := by
      by_contra hne
      exact natDecList_ne_nil f (n / 10) (by omega)
        (by have := Nat.div_lt_self h1 (by omega : 1 < 10); omega) hnil
    rw [hnil, List.nil_append] at h
    have hchar : Char.ofNat (48 + n % 10) = Char.ofNat (48 + d) := by
      simpa using h
    have hmod : n % 10 = d := by
      have := congrArg Char.toNat hchar
      rw [charOfNat_digit_toNat _ (Nat.mod_lt n (by omega)),
        charOfNat_digit_toNat _ hd] at this
      omega
    omega

theorem natDecList_eq_ten (fuel n : Nat) (h1 : 0 < n) (h2 : n ≤ fuel)
    (h : natDecList fuel n = ['1', '0']) : n = 10 := by
  cases fuel with
  | zero => omega
  | succ f =>
    rw [natDecList, if_neg (by omega : ¬ n = 0)] at h
    have hsplit : natDecList f (n / 10) = ['1'] ∧ Char.ofNat (48 + n % 10) = '0' := by
      cases hx : natDecList f (n / 10) with
      | nil => rw [hx] at h; simp at h
      | cons a l =>
        rw [hx] at h
        cases l with
        | nil => simp at h; exact ⟨by simp [h.1], h.2⟩
        | cons b t => simp at h
    have hq : n / 10 = 1 := by
      have hne : n / 10 ≠ 0 := by
        intro hz; rw [hz, natDecList_zero] at hsplit; exact absurd hsplit.1 (by simp)
      have h1d : ('1' : Char) = Char.ofNat (48 + 1) := by decide
      exact natDecList_eq_single f (n / 10) 1 (by omega)
        (by have := Nat.div_lt_self h1 (by omega : 1 < 10); omega)
        (by omega) (by rw [hsplit.1, h1d])
    have hmod : n % 10 = 0 := by
      have := congrArg Char.toNat hsplit.2
      rw [charOfNat_digit_toNat _ (Nat.mod_lt n (by omega))] at this
      simpa using this
    omega

theorem natDecList0_eq_five (n : Nat) (h : natDecList0 n = ['5']) : n = 5 := by
  by_cases h0 : n = 0
  · rw [h0] at h; simp [natDecList0] at h
  · rw [natDecList0, if_neg h0] at h
    have h5 : ('5' : Char) = Char.ofNat (48 + 5) := by decide
    exact natDecList_eq_single n n 5 (by omega) le_rfl (by omega) (by rw [h, h5])

theorem natDecList0_eq_ten (n : Nat) (h : natDecList0 n = ['1', '0']) : n = 10 := by
  by_cases h0 : n = 0
  · rw [h0] at h; simp [natDecList0] at h
  · rw [natDecList0, if_neg h0] at h
    exact natDecList_eq_ten n n (by omega) le_rfl h

theorem intDecStr_eq_five (i : Int) (h : intDecStr i = "5") : i = 5 := by
  have hdata : intDecList i = ['5'] := congrArg String.data h
  rw [intDecList] at hdata
  by_cases hneg : i < 0
  · rw [if_pos hneg] at hdata; simp at hdata
  · rw [if_neg hneg] at hdata
    have := natDecList0_eq_five _ hdata
    omega

theorem intDecStr_eq_ten (i : Int) (h : intDecStr i = "10") : i = 10 := by
  have hdata : intDecList i = ['1', '0'] := congrArg String.data h
  rw [intDecList] at hdata
  by_cases hneg : i < 0
  · rw [if_pos hneg] at hdata; simp at hdata
  · rw [if_neg hneg] at hdata
    have := natDecList0_eq_ten _ hdata
    omega

theorem jsNumToString_dot (q : ℚ) (hden : q.den ≠ 1) :
    '.' ∈ (jsNumToString q).data := by
  rw [jsNumToString, if_neg hden]
  simp

theorem jsNumToString_eq_five (q : ℚ) (h : jsNumToString q = "5") : q = 5 := by
  by_cases hden : q.den = 1
  · rw [jsNumToString, if_pos hden] at h
    have hnum := intDecStr_eq_five _ h
    have h5 : ((5 : ℚ).num = 5 ∧ (5 : ℚ).den = 1) := by decide
    exact Rat.ext (by rw [hnum, h5.1]) (by rw [hden, h5.2])
  · exfalso
    have hdot := jsNumToString_dot q hden
    rw [h] at hdot
    simp at hdot

theorem jsNumToString_eq_ten (q : ℚ) (h : jsNumToString q = "10") : q = 10 := by
  by_cases hden : q.den = 1
  · rw [jsNumToString, if_pos hden] at h
    have hnum := intDecStr_eq_ten _ h
    have h10 : ((10 : ℚ).num = 10 ∧ (10 : ℚ).den = 1) := by decide
    exact Rat.ext (by rw [hnum, h10.1]) (by rw [hden, h10.2])
  · exfalso
    have hdot := jsNumToString_dot q hden
    rw [h] at hdot
    simp at hdot

/-! ## Facts about the polling loop -/

/-- A poll event whose response carries a known in-progress status (HTTP
success, JSON content type, status in the processing vocabulary). -/
def isProcessingEvent (e : PollEvent) : Bool :=
  e.resp.ok && strContains (ctLowerOf e.resp.contentType) "application/json" &&
    isProcessingStatus (jsGet e.resp.jsonBody "status")

/-- Total wall-clock time a trace of in-progress responses consumes:
each iteration spends its round-trip plus one sleep interval. -/
def pollTimeSum (pollEveryMs : Nat) : List PollEvent → Nat
  | [] => 0
  | e :: rest => e.fetchMs + pollEveryMs + pollTimeSum pollEveryMs rest

theorem vocab_disjoint (v : String) (h : termVocab v = true) :
    procVocab v = false := by
  simp only [termVocab, Bool.or_eq_true, decide_eq_true_eq] at h
  rcases h with ((h | h) | h) | h <;> subst h <;> decide

theorem terminal_not_processing (s : Option JsonV)
    (h : isTerminalErrorStatus s = true) : isProcessingStatus s = false :=
  vocab_disjoint _ h

theorem retrieveStep_again (qid : String) (e : PollEvent)
    (h : isProcessingEvent e = true) : retrieveStep qid e.resp = .again := by
  simp only [isProcessingEvent, Bool.and_eq_true] at h
  simp [retrieveStep, h.1.1, h.1.2, h.2]

theorem retrieveStep_binary (qid : String) (r : RetrieveResp)
    (hok : r.ok = true)
    (hct : strContains (ctLowerOf r.contentType) "application/json" = false) :
    retrieveStep qid r = .finish (.binary 200 (relayMime r.contentType) r.textBody) := by
  simp [retrieveStep, hok, hct]

theorem retrieveStep_terminal (qid : String) (r : RetrieveResp)
    (hok : r.ok = true)
    (hct : strContains (ctLowerOf r.contentType) "application/json" = true)
    (hterm : isTerminalErrorStatus (jsGet r.jsonBody "status") = true)
    (hurl : isHttpUrl (urlCandidate r.jsonBody) = false) :
    retrieveStep qid r = .finish (.jsonResp 502 (terminalFailBody qid r.jsonBody)) := by
  simp [retrieveStep, hok, hct, hterm, hurl, terminal_not_processing _ hterm]

theorem retrieveStep_unexpected (qid : String) (r : RetrieveResp)
    (hok : r.ok = true)
    (hct : strContains (ctLowerOf r.contentType) "application/json" = true)
    (hproc : isProcessingStatus (jsGet r.jsonBody "status") = false)
    (hterm : isTerminalErrorStatus (jsGet r.jsonBody "status") = false)
    (hurl : isHttpUrl (urlCandidate r.jsonBody) = false) :
    retrieveStep qid r = .finish (.jsonResp 502 (unexpectedJsonBody qid r.jsonBody)) := by
  simp [retrieveStep, hok, hct, hproc, hterm, hurl]

theorem retrieveLoop_timeout (qid : String) (maxWaitMs pollEveryMs : Nat)
    (evs : List PollEvent) :
    ∀ elapsed fetches sleeps,
      (∀ e ∈ evs, isProcessingEvent e = true) →
      maxWaitMs ≤ elapsed + pollTimeSum pollEveryMs evs →
      ∃ f2 s2, retrieveLoop qid maxWaitMs pollEveryMs evs elapsed fetches sleeps =
        some ⟨.jsonResp 202 (timeoutBody qid), f2, s2⟩ := by
  induction evs with
  | nil =>
    intro elapsed f s _ hle
    simp only [pollTimeSum, Nat.add_zero] at hle
    rw [retrieveLoop, if_neg (by omega)]
    exact ⟨f, s, rfl⟩
  | cons e rest ih =>
    intro elapsed f s hall hle
    rw [retrieveLoop]
    by_cases hlt : elapsed < maxWaitMs
    · rw [if_pos hlt, retrieveStep_again qid e (hall e (by simp))]
      exact ih _ _ _ (fun e2 he2 => hall e2 (by simp [he2]))
        (by simp only [pollTimeSum] at hle; omega)
    · rw [if_neg hlt]
      exact ⟨f, s, rfl⟩

theorem retrieveLoop_binary_after (qid : String) (maxWaitMs pollEveryMs : Nat)
    (binEv : PollEvent) (hok : binEv.resp.ok = true)
    (hct : strContains (ctLowerOf binEv.resp.contentType) "application/json" = false)
    (procs : List PollEvent) :
    ∀ elapsed fetches sleeps,
      (∀ e ∈ procs, isProcessingEvent e = true ∧ e.fetchMs = 0) →
      elapsed + procs.length * pollEveryMs < maxWaitMs →
      retrieveLoop qid maxWaitMs pollEveryMs (procs ++ [binEv]) elapsed fetches sleeps =
        some ⟨.binary 200 (relayMime binEv.resp.contentType) binEv.resp.textBody,
              fetches + procs.length + 1, sleeps + procs.length⟩ := by
  induction procs with
  | nil =>
    intro elapsed f s _ hlt
    simp only [List.length_nil, Nat.zero_mul, Nat.add_zero] at hlt
    rw [List.nil_append, retrieveLoop, if_pos hlt,
      retrieveStep_binary qid binEv.resp hok hct]
    rfl
  | cons e rest ih =>
    intro elapsed f s hall hlt
    have hlen : (e :: rest).length * pollEveryMs =
        rest.length * pollEveryMs + pollEveryMs := by
      simp [List.length_cons, Nat.succ_mul]
    rw [List.cons_append, retrieveLoop, if_pos (by omega),
      retrieveStep_again qid e (hall e (by simp)).1, (hall e (by simp)).2]
    have hrec := ih (elapsed + 0 + pollEveryMs) (f + 1) (s + 1)
      (fun e2 he2 => hall e2 (by simp [he2])) (by omega)
    rw [hrec]
    simp only [Option.some.injEq, PollOutcome.mk.injEq, List.length_cons]
    exact ⟨trivial, by omega, by omega⟩

/-! ## Helper facts for the sanitizer bounds -/

theorem mkStr_length (l : List Char) : (String.mk l).length = l.length := rfl

theorem safeStr_length (v : Option JsonV) (n : Nat) : (safeStr v n).length ≤ n := by
  rcases v with _ | w
  · exact Nat.zero_le n
  · cases w with
    | str s =>
      show (String.mk (s.data.take n)).length ≤ n
      rw [mkStr_length, List.length_take]
      omega
    | null => exact Nat.zero_le n
    | bool b => exact Nat.zero_le n
    | num q => exact Nat.zero_le n
    | arr xs => exact Nat.zero_le n
    | obj kvs => exact Nat.zero_le n

theorem dropWhile_length_le (p : Char → Bool) (cs : List Char) :
    (cs.dropWhile p).length ≤ cs.length := by
  induction cs with
  | nil => simp
  | cons c rest ih =>
    rw [List.dropWhile_cons]
    split
    · exact Nat.le_trans ih (by simp)
    · simp

theorem trimChars_length_le (cs : List Char) : (trimChars cs).length ≤ cs.length := by
  unfold trimChars
  calc (((cs.dropWhile Char.isWhitespace).reverse.dropWhile Char.isWhitespace).reverse).length
      = ((cs.dropWhile Char.isWhitespace).reverse.dropWhile Char.isWhitespace).length := by
        simp
    _ ≤ (cs.dropWhile Char.isWhitespace).reverse.length := dropWhile_length_le _ _
    _ = (cs.dropWhile Char.isWhitespace).length := by simp
    _ ≤ cs.length := dropWhile_length_le _ _

theorem jsTrim_length_le (s : String) : (jsTrim s).length ≤ s.length :=
  trimChars_length_le s.data

/-! ## Helper facts for the duration mapping -/

/-- Whether a request field is a JS number or string (the two duration
shapes the handler inspects). -/
def isNumOrStr : Option JsonV → Bool
  | some (.num _) => true
  | some (.str _) => true
  | _ => false

theorem durNumOf_default (v : Option JsonV) (h : isNumOrStr v = false) :
    durNumOf v = "5" := by
  rcases v with _ | w
  · rfl
  · rcases w with _ | b | q | s | xs | kvs <;> first | rfl | simp [isNumOrStr] at h

/-! ## Claim C2 -/

/-- C2: for every polling run whose time budget is exhausted while every
provider response observed had a known in-progress status, the poller
returns a 202 whose body carries status `"PROCESSING"` and the queueId it
was polling with, and no artifact (the result is the JSON timeout body,
not a binary relay). -/
theorem c2_timeout_returns_processing_202 (qid : String)
    (maxWaitMs pollEveryMs : Nat) (evs : List PollEvent)
    (hall : ∀ e ∈ evs, isProcessingEvent e = true)
    (hbudget : maxWaitMs ≤ pollTimeSum pollEveryMs evs) :
    ∃ fetches sleeps,
      retrieveUntilDone qid maxWaitMs pollEveryMs evs =
        some ⟨.jsonResp 202 (timeoutBody qid), fetches, sleeps⟩ := by
  have h := retrieveLoop_timeout qid maxWaitMs pollEveryMs evs 0 0 0 hall (by omega)
  simpa [retrieveUntilDone] using h

/-- A provider response reporting an in-progress status, received
instantaneously. -/
def c2procEvent : PollEvent :=
  ⟨0, ⟨true, 200, some "application/json", "",
    some (.obj [("status", .str "PROCESSING")])⟩⟩

theorem c2_witness :
    ∃ fetches sleeps,
      retrieveUntilDone "qc2" 3000 2000 [c2procEvent, c2procEvent] =
        some ⟨.jsonResp 202 (timeoutBody "qc2"), fetches, sleeps⟩ :=
  c2_timeout_returns_processing_202 "qc2" 3000 2000 [c2procEvent, c2procEvent]
    (by decide) (by decide)

/-! ## Claim C3 -/

/-- C3: if the provider reports a known in-progress status on the first N
retrieve calls (with instantaneous round-trips) and a non-JSON binary body
on call N+1, and N sleep intervals fit within the time budget, the poller
performs exactly N sleep-then-retry cycles before relaying the binary
body. -/
theorem c3_n_sleeps_then_binary_relay (qid : String)
    (maxWaitMs pollEveryMs : Nat) (procs : List PollEvent) (binEv : PollEvent)
    (hprocs : ∀ e ∈ procs, isProcessingEvent e = true ∧ e.fetchMs = 0)
    (hok : binEv.resp.ok = true)
    (hct : strContains (ctLowerOf binEv.resp.contentType) "application/json" = false)
    (hbudget : procs.length * pollEveryMs < maxWaitMs) :
    retrieveUntilDone qid maxWaitMs pollEveryMs (procs ++ [binEv]) =
      some ⟨.binary 200 (relayMime binEv.resp.contentType) binEv.resp.textBody,
            procs.length + 1, procs.length⟩ := by
  have h := retrieveLoop_binary_after qid maxWaitMs pollEveryMs binEv hok hct
    procs 0 0 0 hprocs (by omega)
  simpa [retrieveUntilDone] using h

/-- A provider response reporting an in-progress status (for C3). -/
def c3procEvent : PollEvent :=
  ⟨0, ⟨true, 200, some "application/json", "",
    some (.obj [("status", .str "RUNNING")])⟩⟩

/-- A binary success response from the provider (for C3). -/
def c3binEvent : PollEvent :=
  ⟨0, ⟨true, 200, some "video/mp4", "BINARYBODY", none⟩⟩

theorem c3_witness :
    retrieveUntilDone "qc3" 25000 2000 ([c3procEvent, c3procEvent] ++ [c3binEvent]) =
      some ⟨.binary 200 "video/mp4" "BINARYBODY", 3, 2⟩ :=
  c3_n_sleeps_then_binary_relay "qc3" 25000 2000 [c3procEvent, c3procEvent]
    c3binEvent (by decide) rfl (by decide) (by decide)

/-! ## Claim C4 -/

/-- A terminal-failure JSON body that also carries a direct result URL. -/
def c4resp : RetrieveResp :=
  ⟨true, 200, some "application/json", "",
    some (.obj [("status", .str "FAILED"),
                ("video_url", .str "http://example.com/v.mp4")])⟩

/-- C4 counterexample: a poll whose HTTP-success JSON response has status
`"FAILED"` (in the terminal-failure vocabulary) is answered with a 200
success carrying the result URL — not with the 502 the claim requires —
because the URL check precedes the terminal-failure check. -/
theorem c4_counterexample :
    retrieveUntilDone "qc4" 25000 2000 [⟨0, c4resp⟩] =
      some ⟨.jsonResp 200 (videoUrlBody "http://example.com/v.mp4" "qc4"
              (some (.str "FAILED"))), 1, 0⟩ := rfl

/-- C4 (amended): for every poll whose HTTP-success JSON response has a
status in the terminal-failure vocabulary and whose body carries no direct
result URL, the poller returns a 502 embedding the provider payload and
the queueId, with exactly one retrieve call and no sleep. -/
theorem c4_amended_terminal_failure_502 (qid : String)
    (maxWaitMs pollEveryMs : Nat) (e : PollEvent) (rest : List PollEvent)
    (hwait : 0 < maxWaitMs)
    (hok : e.resp.ok = true)
    (hct : strContains (ctLowerOf e.resp.contentType) "application/json" = true)
    (hterm : isTerminalErrorStatus (jsGet e.resp.jsonBody "status") = true)
    (hurl : isHttpUrl (urlCandidate e.resp.jsonBody) = false) :
    retrieveUntilDone qid maxWaitMs pollEveryMs (e :: rest) =
      some ⟨.jsonResp 502 (terminalFailBody qid e.resp.jsonBody), 1, 0⟩ := by
  rw [retrieveUntilDone, retrieveLoop, if_pos hwait,
    retrieveStep_terminal qid e.resp hok hct hterm hurl]

/-- A plain terminal-failure JSON response (for the C4 witness). -/
def c4failEvent : PollEvent :=
  ⟨0, ⟨true, 200, some "application/json", "",
    some (.obj [("status", .str "failed"), ("detail", .str "boom")])⟩⟩

theorem c4_witness :
    retrieveUntilDone "qc4w" 25000 2000 [c4failEvent, c4failEvent] =
      some ⟨.jsonResp 502 (terminalFailBody "qc4w"
              (some (.obj [("status", .str "failed"), ("detail", .str "boom")]))),
            1, 0⟩ :=
  c4_amended_terminal_failure_502 "qc4w" 25000 2000 c4failEvent [c4failEvent]
    (by decide) rfl (by decide) (by decide) (by decide)

/-! ## Claim C5 -/

/-- A non-JSON, non-video success response from the provider. -/
def c5resp : RetrieveResp :=
  ⟨true, 200, some "application/octet-stream", "BIN", none⟩

/-- C5 counterexample: a non-JSON provider response with media type
`application/octet-stream` is relayed with `Content-Type: video/mp4` —
the provider's media type is not preserved, contrary to the claim. -/
theorem c5_counterexample :
    retrieveUntilDone "qc5" 25000 2000 [⟨0, c5resp⟩] =
        some ⟨.binary 200 "video/mp4" "BIN", 1, 0⟩ ∧
      "video/mp4" ≠ "application/octet-stream" :=
  ⟨rfl, by decide⟩

/-- C5 (amended): for every poll whose HTTP-success response has a
non-JSON content type, the poller immediately returns a 200 relaying the
provider's body; the `Content-Type` is the provider's media type
(lowercased, parameters stripped) when it is a `video/*` type and
`video/mp4` otherwise, as computed by `relayMime`. -/
theorem c5_amended_binary_relay (qid : String)
    (maxWaitMs pollEveryMs : Nat) (e : PollEvent) (rest : List PollEvent)
    (hwait : 0 < maxWaitMs)
    (hok : e.resp.ok = true)
    (hct : strContains (ctLowerOf e.resp.contentType) "application/json" = false) :
    retrieveUntilDone qid maxWaitMs pollEveryMs (e :: rest) =
      some ⟨.binary 200 (relayMime e.resp.contentType) e.resp.textBody, 1, 0⟩ := by
  rw [retrieveUntilDone, retrieveLoop, if_pos hwait,
    retrieveStep_binary qid e.resp hok hct]

/-- A binary video response with content-type parameters (for C5). -/
def c5videoEvent : PollEvent :=
  ⟨0, ⟨true, 200, some "video/webm; codecs=vp9", "WEBMBODY", none⟩⟩

theorem c5_witness :
    retrieveUntilDone "qc5w" 25000 2000 [c5videoEvent] =
      some ⟨.binary 200 "video/webm" "WEBMBODY", 1, 0⟩ :=
  c5_amended_binary_relay "qc5w" 25000 2000 c5videoEvent []
    (by decide) rfl (by decide)

/-! ## Claim C7 -/

/-- C7: for every poll whose HTTP-success JSON response has a status
outside both the in-progress and terminal-failure vocabularies and no
direct result URL, the poller returns a 502 error at once — it neither
loops again (no sleep) nor returns success. -/
theorem c7_unrecognized_json_502 (qid : String)
    (maxWaitMs pollEveryMs : Nat) (e : PollEvent) (rest : List PollEvent)
    (hwait : 0 < maxWaitMs)
    (hok : e.resp.ok = true)
    (hct : strContains (ctLowerOf e.resp.contentType) "application/json" = true)
    (hproc : isProcessingStatus (jsGet e.resp.jsonBody "status") = false)
    (hterm : isTerminalErrorStatus (jsGet e.resp.jsonBody "status") = false)
    (hurl : isHttpUrl (urlCandidate e.resp.jsonBody) = false) :
    retrieveUntilDone qid maxWaitMs pollEveryMs (e :: rest) =
      some ⟨.jsonResp 502 (unexpectedJsonBody qid e.resp.jsonBody), 1, 0⟩ := by
  rw [retrieveUntilDone, retrieveLoop, if_pos hwait,
    retrieveStep_unexpected qid e.resp hok hct hproc hterm hurl]

/-- A JSON response with an unrecognized status (for C7). -/
def c7event : PollEvent :=
  ⟨0, ⟨true, 200, some "application/json", "",
    some (.obj [("status", .str "ALMOST_DONE")])⟩⟩

theorem c7_witness :
    retrieveUntilDone "qc7" 25000 2000 [c7event, c7event] =
      some ⟨.jsonResp 502 (unexpectedJsonBody "qc7"
              (some (.obj [("status", .str "ALMOST_DONE")]))), 1, 0⟩ :=
  c7_unrecognized_json_502 "qc7" 25000 2000 c7event [c7event]
    (by decide) rfl (by decide) (by decide) (by decide) (by decide)

/-! ## Claim C1 -/

/-- A Mode A request whose duration is the boolean `true` — not one of
`5`, `"5"`, `10`, `"10"`. -/
def c1badReq : VideoReq :=
  ⟨none, some (.str "data:image/png;base64,AAAA"), some (.bool true), none, none⟩

/-- C1 counterexample: a duration value outside `{5, "5", 10, "10"}`
(the boolean `true`) is not rejected with a 400; the handler silently
defaults it and issues the provider queue call with the `"5s"` token. -/
theorem c1_counterexample :
    videoPost true c1badReq =
      .queueCall ⟨videoModel, defaultVideoPrompt, "5s",
        "data:image/png;base64,AAAA", "16:9", "480p", false⟩ := rfl

/-- C1 (amended): on a Mode A submission with a valid image, the number 5
and strings trimming to `"5"` map to the provider token `"5s"`; the number
10 and strings trimming to `"10"` map to `"10s"`; a duration that is
neither a number nor a string (including an absent one) is defaulted to
`"5s"`; every other number or string is rejected with the 400 listing the
supported set `[5, 10]`, without issuing the provider queue call. -/
theorem c1_amended_duration_mapping (req : VideoReq)
    (hpoll : isPollRequest req.queue_id = false)
    (himg : isDataUrlImage req.image = true) :
    (req.duration = some (.num 5) →
      videoPost true req = .queueCall (modeAPayload req "5s")) ∧
    (req.duration = some (.num 10) →
      videoPost true req = .queueCall (modeAPayload req "10s")) ∧
    (∀ s, req.duration = some (.str s) → jsTrim s = "5" →
      videoPost true req = .queueCall (modeAPayload req "5s")) ∧
    (∀ s, req.duration = some (.str s) → jsTrim s = "10" →
      videoPost true req = .queueCall (modeAPayload req "10s")) ∧
    (isNumOrStr req.duration = false →
      videoPost true req = .queueCall (modeAPayload req "5s")) ∧
    (∀ q, req.duration = some (.num q) → q ≠ 5 → q ≠ 10 →
      videoPost true req = .respond (.jsonResp 400 (durationErrBody req.duration))) ∧
    (∀ s, req.duration = some (.str s) → jsTrim s ≠ "5" → jsTrim s ≠ "10" →
      videoPost true req = .respond (.jsonResp 400 (durationErrBody req.duration))) := by
  have hbase : videoPost true req = videoModeA req := by
    simp [videoPost, hpoll]
  have hfive : durNumOf (some (.num 5)) = "5" := by decide
  have hten : durNumOf (some (.num 10)) = "10" := by decide
  refine ⟨?_, ?_, ?_, ?_, ?_, ?_, ?_⟩
  · intro hd
    rw [hbase]
    simp [videoModeA, himg, hd, hfive, durToken]
  · intro hd
    rw [hbase]
    simp [videoModeA, himg, hd, hten, durToken]
  · intro s hd htrim
    rw [hbase]
    simp [videoModeA, himg, hd, durNumOf, htrim, durToken]
  · intro s hd htrim
    rw [hbase]
    simp [videoModeA, himg, hd, durNumOf, htrim, durToken]
  · intro hshape
    rw [hbase]
    simp [videoModeA, himg, durNumOf_default req.duration hshape, durToken]
  · intro q hd hq5 hq10
    have hne5 : jsNumToString q ≠ "5" := fun hh => hq5 (jsNumToString_eq_five q hh)
    have hne10 : jsNumToString q ≠ "10" := fun hh => hq10 (jsNumToString_eq_ten q hh)
    rw [hbase]
    simp [videoModeA, himg, hd, durNumOf, durToken, hne5, hne10]
  · intro s hd htrim5 htrim10
    rw [hbase]
    simp [videoModeA, himg, hd, durNumOf, durToken, htrim5, htrim10]

/-- A Mode A request with a supported string duration `" 10 "`. -/
def c1wReq : VideoReq :=
  ⟨none, some (.str "data:image/jpeg;base64,QUJD"), some (.str " 10 "), none,
    some (.str "720p")⟩

theorem c1_witness :
    videoPost true c1wReq = .queueCall (modeAPayload c1wReq "10s") :=
  (c1_amended_duration_mapping c1wReq (by decide) (by decide)).2.2.2.1
    " 10 " rfl (by decide)

/-! ## Claim C6 -/

/-- C6: for every Mode A queue response with an HTTP-success status whose
body carries no `queue_id` (including non-JSON bodies), the endpoint
returns the 502 "missing queue_id" error instead of passing the response
through as success. -/
theorem c6_missing_queue_id_502 (qr : QueueResp) (hok : qr.ok = true)
    (hmiss : jsGet qr.json "queue_id" = none) :
    handleQueueResp qr = .respond (.jsonResp 502 (missingQueueIdBody qr.text)) := by
  simp [handleQueueResp, hok, hmiss]

/-- An HTTP-success queue response whose body is not JSON. -/
def c6resp : QueueResp := ⟨true, 200, "<html>oops</html>", none⟩

theorem c6_witness :
    handleQueueResp c6resp =
      .respond (.jsonResp 502 (missingQueueIdBody "<html>oops</html>")) :=
  c6_missing_queue_id_502 c6resp rfl rfl

/-! ## Claim C8 -/

/-- C8: for every Mode A request (no usable `queue_id`) whose image field
is missing or not a base64 image data URL, the handler returns the 400
image error without dispatching any provider call (the dispatch is
`respond`, not `queueCall` or `pollMode`). -/
theorem c8_invalid_image_400_no_call (req : VideoReq)
    (hpoll : isPollRequest req.queue_id = false)
    (himg : isDataUrlImage req.image = false) :
    videoPost true req = .respond (.jsonResp 400 (imageErrBody (jsTypeof req.image))) := by
  simp [videoPost, hpoll, videoModeA, himg]

/-- A Mode A request whose image field is a plain (non data-URL) string. -/
def c8req : VideoReq :=
  ⟨none, some (.str "http://example.com/cat.png"), some (.num 5), none, none⟩

theorem c8_witness :
    videoPost true c8req = .respond (.jsonResp 400 (imageErrBody "string")) :=
  c8_invalid_image_400_no_call c8req rfl (by decide)

/-! ## Claim C9 -/

/-- C9: for every chat request with tier exactly `"uncensored"` whose
`paymentStatus` is not exactly the string `"paid"` (including `"unpaid"`,
`"cancelled"`, or absent), the handler returns the 402
`PAYMENT_REQUIRED` response and calls neither chat-completion provider
(the outcome is `resp`, not `deepseek` or `venice`). -/
theorem c9_unpaid_uncensored_402 (body : JsonV)
    (htier : jsGetV body "tier" = some (.str "uncensored"))
    (hpay : isStrEq (jsGetV body "paymentStatus") "paid" = false) :
    chatPost body = .resp 402 paymentRequiredBody := by
  cases body with
  | null => simp [jsGetV] at htier
  | bool b => simp [jsGetV] at htier
  | num q => simp [jsGetV] at htier
  | str s => simp [jsGetV] at htier
  | arr xs => simp [jsGetV] at htier
  | obj kvs =>
    have htr : isStrEq (some (JsonV.str "uncensored")) "uncensored" = true := rfl
    simp only [chatPost, htier, htr, hpay, jsonTruthy, jsTypeofV]
    simp

/-- An uncensored-tier request whose payment was cancelled. -/
def c9body : JsonV :=
  .obj [("tier", .str "uncensored"), ("paymentStatus", .str "cancelled"),
        ("message", .str "hi"), ("character", .obj [("name", .str "Kaia")])]

theorem c9_witness : chatPost c9body = .resp 402 paymentRequiredBody :=
  c9_unpaid_uncensored_402 c9body rfl rfl

/-! ## Claim C10 -/

/-- C10: for every input character value, the sanitized character has an
integer age in `[18, 200]`, with any non-numeric or non-finite age
replaced by 18, and every string field truncated to its fixed maximum
length (name 40, gender 30, language 30, personality 300, scenario
300). -/
theorem c10_sanitize_invariants (ch : JsonV) :
    18 ≤ (sanitizeCharacter ch).age ∧ (sanitizeCharacter ch).age ≤ 200 ∧
    (jsNumIsFinite (jsToNumber (jsGetV ch "age")) = false →
      (sanitizeCharacter ch).age = 18) ∧
    (sanitizeCharacter ch).name.length ≤ 40 ∧
    (sanitizeCharacter ch).gender.length ≤ 30 ∧
    (sanitizeCharacter ch).language.length ≤ 30 ∧
    (sanitizeCharacter ch).personality.length ≤ 300 ∧
    (sanitizeCharacter ch).scenario.length ≤ 300 := by
  have hage : (sanitizeCharacter ch).age =
      (match jsToNumber (jsGetV ch "age") with
       | .finite q => intClamp (Rat.floor q) 18 200
       | _ => 18) := rfl
  refine ⟨?_, ?_, ?_, ?_, ?_, ?_, ?_, ?_⟩
  · rw [hage]
    cases jsToNumber (jsGetV ch "age") with
    | finite q => exact le_max_left _ _
    | nan => decide
    | posInf => decide
    | negInf => decide
  · rw [hage]
    cases jsToNumber (jsGetV ch "age") with
    | finite q => exact max_le (by decide) (min_le_left _ _)
    | nan => decide
    | posInf => decide
    | negInf => decide
  · intro hfin
    rw [hage]
    cases hn : jsToNumber (jsGetV ch "age") with
    | finite q => rw [hn] at hfin; simp [jsNumIsFinite] at hfin
    | nan => rfl
    | posInf => rfl
    | negInf => rfl
  · show (strOrDefault (jsTrim (safeStr (jsGetV ch "name") 40)) "Character").length ≤ 40
    rw [strOrDefault]
    split
    · decide
    · exact le_trans (jsTrim_length_le _) (safeStr_length _ _)
  · exact safeStr_length _ _
  · show (strOrDefault (safeStr (jsGetV ch "language") 30) "English").length ≤ 30
    rw [strOrDefault]
    split
    · decide
    · exact safeStr_length _ _
  · exact safeStr_length _ _
  · exact safeStr_length _ _

/-- A character whose age field does not convert to a finite number. -/
def c10char : JsonV :=
  .obj [("name", .str "An extremely long character name that goes on and on and on"),
        ("age", .str "unknown"), ("language", .str "")]

theorem c10_witness :
    18 ≤ (sanitizeCharacter c10char).age ∧ (sanitizeCharacter c10char).age ≤ 200 ∧
    (jsNumIsFinite (jsToNumber (jsGetV c10char "age")) = false →
      (sanitizeCharacter c10char).age = 18) ∧
    (sanitizeCharacter c10char).name.length ≤ 40 ∧
    (sanitizeCharacter c10char).gender.length ≤ 30 ∧
    (sanitizeCharacter c10char).language.length ≤ 30 ∧
    (sanitizeCharacter c10char).personality.length ≤ 300 ∧
    (sanitizeCharacter c10char).scenario.length ≤ 300 :=
  c10_sanitize_invariants c10char

end Roleplai
